import Mathlib

/-!
Verification of the bevy_simon memorization game (src/main.rs).

The source is a Bevy application; its game logic is embedded shallowly:

* machine integers (`u8`) become `Nat`, with `% 256` written at the two
  increment sites (`idx += 1`, `max_idx += 1`) where overflow is possible;
* `f32` vector arithmetic in the hit tests becomes exact `ℚ` arithmetic;
* fallible operations (Rust slice indexing, which panics out of bounds)
  return `Option`, with `none` standing for the panic;
* each Bevy system becomes a function from its queried/mutated data to the
  updated data, and the per-frame scheduling becomes explicit composition.
-/

/-- A 2d vector (`Vec2` of the source), with exact rational coordinates. -/
structure Vec2 where
  x : ℚ
  y : ℚ
  deriving DecidableEq

/-- The doubled signed area appearing in `check_collision_point_tri`:
`(b.y - c.y) * (a.x - c.x) + (c.x - b.x) * (a.y - c.y)`. -/
def triangle_area (a b c : Vec2) : ℚ :=
  (b.y - c.y) * (a.x - c.x) + (c.x - b.x) * (a.y - c.y)

/-- `bary_a_area` of `check_collision_point_tri`. -/
def bary_a_area (p b c : Vec2) : ℚ :=
  (b.y - c.y) * (p.x - c.x) + (c.x - b.x) * (p.y - c.y)

/-- `bary_b_area` of `check_collision_point_tri`. -/
def bary_b_area (p a c : Vec2) : ℚ :=
  (c.y - a.y) * (p.x - c.x) + (a.x - c.x) * (p.y - c.y)

/-- `check_collision_point_tri` of the source: barycentric point-in-triangle
test. `inv_triangle_area` is the reciprocal of the doubled signed area
(`recip`); the point counts as inside iff all three normalized barycentric
weights are strictly positive. -/
def check_collision_point_tri (p a b c : Vec2) : Bool :=
  let inv_triangle_area := (triangle_area a b c)⁻¹
  let bary_a := bary_a_area p b c * inv_triangle_area
  let bary_b := bary_b_area p a c * inv_triangle_area
  let bary_c := 1 - bary_a - bary_b
  decide (0 < bary_a) && decide (0 < bary_b) && decide (0 < bary_c)

/-- The shape stored in a `MouseHoverTracker`: rectangle half-extents or a
triangle's three vertices, in the shape's local frame. -/
inductive HoverShape where
  | Rectangle (halfExtents : Vec2)
  | Triangle (a b c : Vec2)
  deriving DecidableEq

/-- The per-shape hit test of `update_mouse_hover_state`, applied to the
pointer position already transformed into the shape's local frame:
rectangles use inclusive bounds, triangles use `check_collision_point_tri`. -/
def hover_hit (shape : HoverShape) (local_pos : Vec2) : Bool :=
  match shape with
  | HoverShape.Rectangle r =>
      decide (-r.x ≤ local_pos.x) && decide (local_pos.x ≤ r.x) &&
        decide (-r.y ≤ local_pos.y) && decide (local_pos.y ≤ r.y)
  | HoverShape.Triangle a b c => check_collision_point_tri local_pos a b c

/-- A parameterized point of the segment from `u` to `v`: `u + t • (v - u)`.
Used only to state boundary (on-edge) properties of the hit tests. -/
def segPoint (u v : Vec2) (t : ℚ) : Vec2 :=
  ⟨u.x + t * (v.x - u.x), u.y + t * (v.y - u.y)⟩

/-- The `MouseHoverTracker` component: current hover flag, the two
edge-triggered flags, and the shape being tracked. -/
structure MouseHoverTracker where
  is_hovered : Bool
  is_just_hovered : Bool
  is_just_unhovered : Bool
  shape : HoverShape
  deriving DecidableEq

/-- `MouseHoverTracker::from_rect`: half-extents `(w/2, h/2)`, all flags
false. -/
def MouseHoverTracker.from_rect (w h : ℚ) : MouseHoverTracker :=
  ⟨false, false, false, HoverShape.Rectangle ⟨w / 2, h / 2⟩⟩

/-- `MouseHoverTracker::from_triangle`: the three vertices, all flags
false. -/
def MouseHoverTracker.from_triangle (a b c : Vec2) : MouseHoverTracker :=
  ⟨false, false, false, HoverShape.Triangle a b c⟩

/-- `MouseHoverTracker::set_hovered`: on a change of `is_hovered`, raise the
edge flag matching the direction of the change; otherwise clear both edge
flags. -/
def MouseHoverTracker.set_hovered (t : MouseHoverTracker) (h : Bool) :
    MouseHoverTracker :=
  if t.is_hovered ≠ h then
    let t1 := { t with is_hovered := h, is_just_hovered := false,
                       is_just_unhovered := false }
    if h then { t1 with is_just_hovered := true }
    else { t1 with is_just_unhovered := true }
  else
    { t with is_just_hovered := false, is_just_unhovered := false }

/-- The `Scene` enum. -/
inductive Scene where
  | Startup
  | ClickToStart
  | MainMenu
  | Game
  | Score
  | Credits
  deriving DecidableEq

/-- The `GameState` resource. `max_idx` and `idx` are `u8` in the source;
they are embedded as `Nat` with `% 256` at the increment sites. -/
structure GameState where
  pattern : List Nat
  interactive : Bool
  max_idx : Nat
  idx : Nat
  deriving DecidableEq

/-- `GameState::new` / `GameState::reset` target value (`Default`). -/
def GameState.new : GameState :=
  { pattern := [], interactive := false, max_idx := 0, idx := 0 }

/-- The `PatternAnimationTimer` resource (a Bevy `Timer`), with elapsed time
and period in abstract integral time units (the source uses 1.0 second). -/
structure PTimer where
  elapsed : Nat
  period : Nat
  repeating : Bool
  deriving DecidableEq

/-- `Timer::reset`: elapsed time back to zero, period and mode kept. -/
def PTimer.reset (t : PTimer) : PTimer := { t with elapsed := 0 }

/-- `Timer::tick` followed by `just_finished`: accumulate the frame delta;
the timer fires when the accumulated time reaches the period, and a
repeating timer then keeps the overshoot modulo the period. -/
def tickTimer (t : PTimer) (delta : Nat) : PTimer × Bool :=
  let e := t.elapsed + delta
  if t.period ≤ e then
    (if t.repeating then { t with elapsed := e % t.period }
     else { t with elapsed := t.period }, true)
  else ({ t with elapsed := e }, false)

/-- The 4-way audio-cue dispatch `match sym { 0 => .., 1 => .., 2 => ..,
_ => .. }` used by both `pattern_playback_system` and `user_game_system`:
symbol to index of the `PatternSounds` handle played. -/
def soundFor (sym : Nat) : Nat :=
  match sym with
  | 0 => 0
  | 1 => 1
  | 2 => 2
  | _ => 3

/-- The material handle currently attached to a pattern shape: the base
color, its `MouseOverMaterial` or its `MouseOutMaterial`. -/
inductive Mat where
  | base
  | over
  | out
  deriving DecidableEq

/-- One of the four pattern-shape entities of the Game scene: its
`PatternIdx` component, whether `MouseHoverDisable` is attached, its
`MouseHoverTracker` and its current material. -/
structure ShapeEntity where
  patternIdx : Nat
  hoverDisabled : Bool
  tracker : MouseHoverTracker
  material : Mat
  deriving DecidableEq

/-- The first hovered entity of `user_game_system`'s query loop: iterate in
order, take the `PatternIdx` of the first tracker with `is_hovered`. -/
def firstHovered (shapes : List ShapeEntity) : Option Nat :=
  (shapes.find? fun e => e.tracker.is_hovered).map fun e => e.patternIdx

/-- The Game-scene world acted on by the pattern engine: the `GameState`
resource, the four pattern-shape entities, the visibility of the
`MemorizeLabel` entity, the `PatternAnimationTimer` and the `NextScene`
resource. -/
structure GameWorld where
  state : GameState
  shapes : List ShapeEntity
  labelVisible : Bool
  timer : PTimer
  nextScene : Scene
  deriving DecidableEq

/-- `pattern_playback_system`. Runs only while not interactive; ticks the
timer; on firing either switches to the input phase (`idx > max_idx`) or
plays `pattern[idx]` and advances `idx`. Out-of-bounds indexing of
`pattern` (the panic of `state.pattern[state.idx as usize]`, performed for
the audio cue when the pattern is nonempty and for the material update when
shape entities exist) yields `none`. The second component is the audio cue
spawned, if any. -/
def pattern_playback_system (w : GameWorld) (delta : Nat) :
    Option (GameWorld × Option Nat) :=
  if w.state.interactive then some (w, none)
  else
    let tf := tickTimer w.timer delta
    if tf.2 then
      if w.state.idx > w.state.max_idx then
        some ({ w with
                state := { w.state with interactive := true, idx := 0 },
                timer := tf.1,
                shapes := w.shapes.map fun e =>
                  { e with material := Mat.out, hoverDisabled := false },
                labelVisible := false }, none)
      else
        match w.state.pattern[w.state.idx]? with
        | some sym =>
            some ({ w with
                    state := { w.state with idx := (w.state.idx + 1) % 256 },
                    timer := tf.1,
                    shapes := w.shapes.map fun e =>
                      { e with material :=
                          if sym = e.patternIdx then Mat.over else Mat.out } },
                  some (soundFor sym))
        | none =>
            if w.state.pattern.isEmpty ∧ w.shapes.isEmpty then
              some ({ w with
                      state := { w.state with idx := (w.state.idx + 1) % 256 },
                      timer := tf.1 }, none)
            else none
    else some ({ w with timer := tf.1 }, none)

/-- `user_game_system`. In the input phase, on a left-button release, find
the first hovered pattern shape; on a correct press play its cue and either
complete the prefix (`idx == max_idx`: bump `max_idx`, reset `idx`, leave
the input phase, reset the timer, re-show the label, re-disable all four
shapes) or advance `idx`; on a wrong press play all four cues and request
the Score scene. The second component is the list of audio cues spawned. -/
def user_game_system (w : GameWorld) (released : Bool) :
    Option (GameWorld × List Nat) :=
  if w.state.interactive = true ∧ released = true then
    match firstHovered w.shapes with
    | none => some (w, [])
    | some b =>
      match w.state.pattern[w.state.idx]? with
      | none => none
      | some sym =>
        if b = sym then
          if w.state.idx = w.state.max_idx then
            some ({ w with
                    state := { w.state with
                               idx := 0,
                               max_idx := (w.state.max_idx + 1) % 256,
                               interactive := false },
                    timer := w.timer.reset,
                    labelVisible := true,
                    shapes := w.shapes.map fun e =>
                      { e with hoverDisabled := true } }, [soundFor b])
          else
            some ({ w with
                    state := { w.state with idx := (w.state.idx + 1) % 256 } },
                  [soundFor b])
        else
          some ({ w with nextScene := Scene.Score }, [0, 1, 2, 3])
  else some (w, [])

/-- The combined per-frame hover update (`update_mouse_hover_state` then
`update_mouse_hover_disable`): every tracker receives exactly one
`set_hovered` call; entities with `MouseHoverDisable` are forced unhovered,
the rest receive the geometric hit-test result, abstracted here as an
arbitrary per-entity boolean `f`. -/
def applyHover (f : ShapeEntity → Bool) (shapes : List ShapeEntity) :
    List ShapeEntity :=
  shapes.map fun e =>
    { e with tracker :=
        e.tracker.set_hovered (if e.hoverDisabled then false else f e) }

/-- `update_mouse_hover_material`: entities whose tracker was just hovered
swap to their `MouseOverMaterial`. -/
def applyHoverMaterial (shapes : List ShapeEntity) : List ShapeEntity :=
  shapes.map fun e =>
    if e.tracker.is_just_hovered then { e with material := Mat.over } else e

/-- `update_mouse_unhover_material`: entities whose tracker was just
unhovered swap to their `MouseOutMaterial`. -/
def applyUnhoverMaterial (shapes : List ShapeEntity) : List ShapeEntity :=
  shapes.map fun e =>
    if e.tracker.is_just_unhovered then { e with material := Mat.out } else e

/-- The pattern generated by `setup_game`: 255 pushes of
`rand::random::<u8>() % 4`, the random stream being abstracted as
`rand : Nat → Nat`. -/
def freshPattern (rand : Nat → Nat) : List Nat :=
  (List.range 255).map fun i => rand i % 4

/-- The `GameState` and timer produced by `setup_game`: `state.reset()`
followed by the 255 pushes and `max_idx = 0`, and `timer.0.reset()`. -/
def setup_game_state (rand : Nat → Nat) (timer : PTimer) :
    GameState × PTimer :=
  ({ pattern := freshPattern rand, interactive := false, max_idx := 0,
     idx := 0 }, timer.reset)

/-- The four pattern-shape entities spawned by `setup_game` for a window of
width `W` and height `H`: four triangles (center and two window corners),
each hover-disabled, with `PatternIdx` 0, 1, 2, 3 in spawn order. -/
def gameShapes (W H : ℚ) : List ShapeEntity :=
  let center : Vec2 := ⟨0, 0⟩
  let tl : Vec2 := ⟨-(W / 2), H / 2⟩
  let tr : Vec2 := ⟨W / 2, H / 2⟩
  let bl : Vec2 := ⟨-(W / 2), -(H / 2)⟩
  let br : Vec2 := ⟨W / 2, -(H / 2)⟩
  [ { patternIdx := 0, hoverDisabled := true,
      tracker := MouseHoverTracker.from_triangle center tl tr,
      material := Mat.base },
    { patternIdx := 1, hoverDisabled := true,
      tracker := MouseHoverTracker.from_triangle center tr br,
      material := Mat.base },
    { patternIdx := 2, hoverDisabled := true,
      tracker := MouseHoverTracker.from_triangle center bl br,
      material := Mat.base },
    { patternIdx := 3, hoverDisabled := true,
      tracker := MouseHoverTracker.from_triangle center tl bl,
      material := Mat.base } ]

/-- The Game-scene world right after `setup_game` ran: fresh state, reset
timer, the four disabled shapes, visible Memorize label, and
`NextScene = Game` (entering Game just set both scene resources to it). -/
def freshGameWorld (rand : Nat → Nat) (W H : ℚ) (t0 : PTimer) : GameWorld :=
  { state := (setup_game_state rand t0).1,
    shapes := gameShapes W H,
    labelVisible := true,
    timer := (setup_game_state rand t0).2,
    nextScene := Scene.Game }

/-- The Game-scene worlds reachable from `setup_game` under the frame
pipeline: per-frame hover updates (with arbitrary pointer geometry), the
hover/unhover material swaps, `pattern_playback_system` with an arbitrary
frame delta, and `user_game_system` with an arbitrary release state. -/
inductive ReachableGW (rand : Nat → Nat) (W H : ℚ) (t0 : PTimer) :
    GameWorld → Prop where
  | init : ReachableGW rand W H t0 (freshGameWorld rand W H t0)
  | hover (w : GameWorld) (f : ShapeEntity → Bool) :
      ReachableGW rand W H t0 w →
      ReachableGW rand W H t0 { w with shapes := applyHover f w.shapes }
  | hoverMat (w : GameWorld) :
      ReachableGW rand W H t0 w →
      ReachableGW rand W H t0
        { w with shapes := applyHoverMaterial w.shapes }
  | unhoverMat (w : GameWorld) :
      ReachableGW rand W H t0 w →
      ReachableGW rand W H t0
        { w with shapes := applyUnhoverMaterial w.shapes }
  | playback (w : GameWorld) (delta : Nat) (w' : GameWorld) (c : Option Nat) :
      ReachableGW rand W H t0 w →
      pattern_playback_system w delta = some (w', c) →
      ReachableGW rand W H t0 w'
  | press (w : GameWorld) (released : Bool) (w' : GameWorld) (cs : List Nat) :
      ReachableGW rand W H t0 w →
      user_game_system w released = some (w', cs) →
      ReachableGW rand W H t0 w'

/-- The engine invariant carried by the `GameState` of every reachable
Game-scene world. -/
def EngineInv (gs : GameState) : Prop :=
  gs.pattern.length = 255 ∧
  gs.max_idx ≤ 255 ∧
  gs.idx ≤ 255 ∧
  (gs.interactive = true → gs.idx ≤ gs.max_idx ∧ gs.max_idx < 255) ∧
  (gs.interactive = false → gs.idx ≤ gs.max_idx + 1)

/-- Reachability instantiated at a concrete entry into the Game scene: the
all-zero random stream (every pattern symbol is 0) on an 800x800 window
with the freshly reset repeating 1-period timer. -/
def CapReach : GameWorld → Prop :=
  ReachableGW (fun _ => 0) 800 800 { elapsed := 0, period := 1, repeating := true }

/-- The entities despawned/spawned by scene transitions, reduced to what the
scene machine observes: scene-change buttons carry their target scene;
pattern shapes carry their `PatternIdx`; plain rectangles and text entities
carry nothing. -/
inductive SceneObj where
  | changeButton (target : Scene)
  | buttonRect
  | text
  | patternShape (idx : Nat)
  deriving DecidableEq

/-- The application-level world: the `CurrentScene`, `NextScene`,
`GameState`, `PatternAnimationTimer`, `HighScore` and `OldHighScore`
resources, the entities tagged `SceneObject`, the last score handed to the
external `save_score`, and the abstracted random stream. -/
structure AppWorld where
  current : Scene
  next : Scene
  sceneObjects : List SceneObj
  gameState : GameState
  timer : PTimer
  highScore : Nat
  oldHighScore : Nat
  savedScore : Option Nat
  rand : Nat → Nat

/-- `setup_click_to_start_scene`: a full-window scene-change button
targeting MainMenu, and a text entity. -/
def setup_click_to_start_scene (w : AppWorld) : AppWorld :=
  { w with sceneObjects := w.sceneObjects ++
      [SceneObj.changeButton Scene.MainMenu, SceneObj.text] }

/-- `setup_main_menu`: a Start Game button (rectangle plus button text
targeting Game), a Credits button, and the high-score text. -/
def setup_main_menu (w : AppWorld) : AppWorld :=
  { w with sceneObjects := w.sceneObjects ++
      [SceneObj.buttonRect, SceneObj.changeButton Scene.Game,
       SceneObj.buttonRect, SceneObj.changeButton Scene.Credits,
       SceneObj.text] }

/-- `setup_credits`: a full-window scene-change button targeting MainMenu
(attached to the credits text), and two more text entities. -/
def setup_credits (w : AppWorld) : AppWorld :=
  { w with sceneObjects := w.sceneObjects ++
      [SceneObj.changeButton Scene.MainMenu, SceneObj.text, SceneObj.text] }

/-- `setup_game` at the application level: reset the timer, regenerate the
`GameState`, advance the random stream past the 255 consumed values, and
spawn the four pattern shapes and the Memorize label. -/
def setup_game (w : AppWorld) : AppWorld :=
  { w with
    timer := w.timer.reset,
    gameState := (setup_game_state w.rand w.timer).1,
    rand := fun i => w.rand (i + 255),
    sceneObjects := w.sceneObjects ++
      [SceneObj.patternShape 0, SceneObj.patternShape 1,
       SceneObj.patternShape 2, SceneObj.patternShape 3, SceneObj.text] }

/-- `setup_score`: show the final score (`state.max_idx`); on a strictly
greater score than `HighScore`, record the old one, update it, hand it to
the external `save_score` and show two extra texts, else show the old
high score; finally a Click-to-return button targeting MainMenu. -/
def setup_score (w : AppWorld) : AppWorld :=
  if w.highScore < w.gameState.max_idx then
    { w with
      oldHighScore := w.highScore,
      highScore := w.gameState.max_idx,
      savedScore := some w.gameState.max_idx,
      sceneObjects := w.sceneObjects ++
        [SceneObj.text, SceneObj.text, SceneObj.text,
         SceneObj.buttonRect, SceneObj.changeButton Scene.MainMenu] }
  else
    { w with sceneObjects := w.sceneObjects ++
        [SceneObj.text, SceneObj.text,
         SceneObj.buttonRect, SceneObj.changeButton Scene.MainMenu] }

/-- The scene-to-setup-system registration built by `setup`: every scene
except `Startup` has a setup routine. -/
def setupFor (s : Scene) : Option (AppWorld → AppWorld) :=
  match s with
  | Scene.Startup => none
  | Scene.ClickToStart => some setup_click_to_start_scene
  | Scene.MainMenu => some setup_main_menu
  | Scene.Credits => some setup_credits
  | Scene.Game => some setup_game
  | Scene.Score => some setup_score

/-- `handle_scene_change`: if `NextScene` differs from `CurrentScene`, set
the current scene, despawn every `SceneObject` entity, and run the new
scene's setup system if registered. Besides the updated world it reports
whether a teardown ran and which scene's setup system ran. -/
def handle_scene_change (w : AppWorld) : AppWorld × Bool × Option Scene :=
  if w.next ≠ w.current then
    let w1 := { w with current := w.next, sceneObjects := [] }
    match setupFor w.next with
    | some f => (f w1, true, some w.next)
    | none => (w1, true, none)
  else (w, false, none)

/-- Per-frame input supplied from outside the core: the frame delta, the
pointer-release edge, the first-hovered pattern shape (if any) and the
first-hovered scene-change button's target (if any). -/
structure FrameInput where
  delta : Nat
  released : Bool
  pressShape : Option Nat
  btnTarget : Option Scene

/-- An input is valid for a world when the hovered entities it reports
actually exist among the current scene's objects. -/
def ValidInput (w : AppWorld) (i : FrameInput) : Prop :=
  (match i.pressShape with
   | some b => SceneObj.patternShape b ∈ w.sceneObjects
   | none => True) ∧
  (match i.btnTarget with
   | some t => SceneObj.changeButton t ∈ w.sceneObjects
   | none => True)

/-- Whether any pattern-shape entity exists (the query of
`pattern_playback_system`'s material loop is nonempty). -/
def hasPatternShapes (objs : List SceneObj) : Bool :=
  objs.any fun o =>
    match o with
    | SceneObj.patternShape _ => true
    | _ => false

/-- `pattern_playback_system` projected to the application level (state and
timer only; shape materials and the label are not tracked here). -/
def playbackApp (gs : GameState) (timer : PTimer) (delta : Nat)
    (shapesPresent : Bool) : Option (GameState × PTimer) :=
  if gs.interactive then some (gs, timer)
  else
    let tf := tickTimer timer delta
    if tf.2 then
      if gs.idx > gs.max_idx then
        some ({ gs with interactive := true, idx := 0 }, tf.1)
      else
        match gs.pattern[gs.idx]? with
        | some _ => some ({ gs with idx := (gs.idx + 1) % 256 }, tf.1)
        | none =>
            if gs.pattern.isEmpty ∧ shapesPresent = false then
              some ({ gs with idx := (gs.idx + 1) % 256 }, tf.1)
            else none
    else some (gs, tf.1)

/-- `user_game_system` projected to the application level: state, timer and
the requested next scene (Score on a wrong press). -/
def pressApp (gs : GameState) (timer : PTimer) (released : Bool)
    (pressShape : Option Nat) (next : Scene) :
    Option (GameState × PTimer × Scene) :=
  if gs.interactive = true ∧ released = true then
    match pressShape with
    | none => some (gs, timer, next)
    | some b =>
      match gs.pattern[gs.idx]? with
      | none => none
      | some sym =>
        if b = sym then
          if gs.idx = gs.max_idx then
            some ({ gs with
                    idx := 0,
                    max_idx := (gs.max_idx + 1) % 256,
                    interactive := false }, timer.reset, next)
          else some ({ gs with idx := (gs.idx + 1) % 256 }, timer, next)
        else some (gs, timer, Scene.Score)
  else some (gs, timer, next)

/-- One frame of the `Update` schedule, in registration order: hover state
(abstracted into the validated `FrameInput`), `pattern_playback_system`,
`user_game_system`, `scene_change_button` (on release, a hovered
scene-change button overwrites `NextScene`), then `handle_scene_change`. -/
def appFrame (w : AppWorld) (i : FrameInput) : Option AppWorld :=
  match playbackApp w.gameState w.timer i.delta
      (hasPatternShapes w.sceneObjects) with
  | none => none
  | some (gs1, t1) =>
    match pressApp gs1 t1 i.released i.pressShape w.next with
    | none => none
    | some (gs2, t2, n2) =>
      let n3 := if i.released then
          match i.btnTarget with
          | some t => t
          | none => n2
        else n2
      some (handle_scene_change
        { w with gameState := gs2, timer := t2, next := n3 }).1

/-- The resources inserted by `ShmPlugin::build`: current scene `Startup`,
next scene `ClickToStart`, default `GameState`, a repeating 1.0-period
timer, the loaded high score, and no scene objects yet. -/
def appStartWorld (rand : Nat → Nat) (hs : Nat) : AppWorld :=
  { current := Scene.Startup,
    next := Scene.ClickToStart,
    sceneObjects := [],
    gameState := GameState.new,
    timer := { elapsed := 0, period := 1, repeating := true },
    highScore := hs,
    oldHighScore := 0,
    savedScore := none,
    rand := rand }

/-- The application worlds reachable at frame boundaries from startup. -/
inductive AppReach (rand : Nat → Nat) (hs : Nat) : AppWorld → Prop where
  | init : AppReach rand hs (appStartWorld rand hs)
  | frame (w : AppWorld) (i : FrameInput) (w' : AppWorld) :
      AppReach rand hs w → ValidInput w i → appFrame w i = some w' →
      AppReach rand hs w'

/-- No reachable scene-change button targets `Startup`. -/
def noStartupTargets (objs : List SceneObj) : Prop :=
  ∀ t, SceneObj.changeButton t ∈ objs → t ≠ Scene.Startup

/-- A mid-game application world about to leave the Game scene after a
wrong press (`NextScene = Score`), with a non-default `GameState`. -/
def exitGameWorld : AppWorld :=
  { current := Scene.Game,
    next := Scene.Score,
    sceneObjects := [SceneObj.patternShape 0, SceneObj.patternShape 1,
                     SceneObj.patternShape 2, SceneObj.patternShape 3,
                     SceneObj.text],
    gameState := { pattern := [0, 1, 2, 3], interactive := true,
                   max_idx := 2, idx := 1 },
    timer := { elapsed := 0, period := 1, repeating := true },
    highScore := 0,
    oldHighScore := 0,
    savedScore := none,
    rand := fun _ => 0 }

/-- A Game-scene world in the playback phase, about to play `pattern[0]`. -/
def playbackDemoWorld : GameWorld :=
  { state := { pattern := [2, 3], interactive := false, max_idx := 1,
               idx := 0 },
    shapes := [],
    labelVisible := true,
    timer := { elapsed := 0, period := 1, repeating := true },
    nextScene := Scene.Game }

/-- A Game-scene world in the input phase with the shape of symbol 1
hovered, whose press completes the current prefix (`idx = max_idx`). -/
def correctPressDemoWorld : GameWorld :=
  { state := { pattern := [1, 0], interactive := true, max_idx := 0,
               idx := 0 },
    shapes := [{ patternIdx := 1, hoverDisabled := false,
                 tracker := { is_hovered := true, is_just_hovered := false,
                              is_just_unhovered := false,
                              shape := HoverShape.Rectangle ⟨1, 1⟩ },
                 material := Mat.base }],
    labelVisible := false,
    timer := { elapsed := 0, period := 1, repeating := true },
    nextScene := Scene.Game }

/-- A Game-scene world with `max_idx = 2`, `idx = 1`, and a hovered shape
whose symbol (3) differs from `pattern[1]` (1). -/
def wrongPressDemoWorld : GameWorld :=
  { state := { pattern := [0, 1, 2], interactive := true, max_idx := 2,
               idx := 1 },
    shapes := [{ patternIdx := 3, hoverDisabled := false,
                 tracker := { is_hovered := true, is_just_hovered := false,
                              is_just_unhovered := false,
                              shape := HoverShape.Rectangle ⟨1, 1⟩ },
                 material := Mat.base }],
    labelVisible := false,
    timer := { elapsed := 0, period := 1, repeating := true },
    nextScene := Scene.Game }

/-!  ## Theorems  -/

theorem freshPattern_length (r : Nat → Nat) : (freshPattern r).length = 255 := by
  simp [freshPattern]

theorem freshPattern_mem (r : Nat → Nat) (x : Nat) (h : x ∈ freshPattern r) :
    x < 4 := by
  simp [freshPattern] at h
  obtain ⟨i, hi, rfl⟩ := h
  exact Nat.mod_lt _ (by norm_num)

theorem freshPattern_getElem (r : Nat → Nat) (j : Nat) (h : j < 255) :
    (freshPattern r)[j]? = some (r j % 4) := by
  simp [freshPattern, List.getElem?_map, List.getElem?_range h]

theorem set_hovered_is_hovered (t : MouseHoverTracker) (b : Bool) :
    (t.set_hovered b).is_hovered = b := by
  cases hb : t.is_hovered <;> cases b <;>
    simp [MouseHoverTracker.set_hovered, hb]

theorem set_hovered_just_hovered (t : MouseHoverTracker) (b : Bool) :
    (t.set_hovered b).is_just_hovered = (!t.is_hovered && b) := by
  cases hb : t.is_hovered <;> cases b <;>
    simp [MouseHoverTracker.set_hovered, hb]

theorem set_hovered_just_unhovered (t : MouseHoverTracker) (b : Bool) :
    (t.set_hovered b).is_just_unhovered = (t.is_hovered && !b) := by
  cases hb : t.is_hovered <;> cases b <;>
    simp [MouseHoverTracker.set_hovered, hb]

/-- C7: after any `set_hovered` update the two edge flags are never both
true; both are false whenever `is_hovered` is unchanged by the update; each
edge flag is true exactly on an update that transitions `is_hovered` in its
direction; and freshly constructed trackers carry no flags, so the
properties hold along any sequence of updates. -/
theorem c7_edge_flags (t : MouseHoverTracker) (b : Bool) :
    (¬((t.set_hovered b).is_just_hovered = true ∧
       (t.set_hovered b).is_just_unhovered = true)) ∧
    (t.set_hovered b).is_hovered = b ∧
    (t.is_hovered = b → (t.set_hovered b).is_just_hovered = false ∧
      (t.set_hovered b).is_just_unhovered = false) ∧
    ((t.set_hovered b).is_just_hovered = true ↔
      t.is_hovered = false ∧ b = true) ∧
    ((t.set_hovered b).is_just_unhovered = true ↔
      t.is_hovered = true ∧ b = false) ∧
    (∀ wd ht : ℚ, (MouseHoverTracker.from_rect wd ht).is_hovered = false ∧
      (MouseHoverTracker.from_rect wd ht).is_just_hovered = false ∧
      (MouseHoverTracker.from_rect wd ht).is_just_unhovered = false) ∧
    (∀ p q r : Vec2,
      (MouseHoverTracker.from_triangle p q r).is_hovered = false ∧
      (MouseHoverTracker.from_triangle p q r).is_just_hovered = false ∧
      (MouseHoverTracker.from_triangle p q r).is_just_unhovered = false) := by
  refine ⟨?_, set_hovered_is_hovered t b, ?_, ?_, ?_, ?_, ?_⟩
  · rw [set_hovered_just_hovered, set_hovered_just_unhovered]
    cases t.is_hovered <;> cases b <;> simp
  · intro h
    rw [set_hovered_just_hovered, set_hovered_just_unhovered, h]
    cases b <;> simp
  · rw [set_hovered_just_hovered]
    cases hb : t.is_hovered <;> cases b <;> simp
  · rw [set_hovered_just_unhovered]
    cases hb : t.is_hovered <;> cases b <;> simp
  · intro wd ht
    exact ⟨rfl, rfl, rfl⟩
  · intro p q r
    exact ⟨rfl, rfl, rfl⟩

theorem c7_edge_flags_witness :
    (MouseHoverTracker.from_rect 2 4).is_hovered = false ∧
    ¬(((MouseHoverTracker.from_rect 2 4).set_hovered false).is_just_hovered =
        true ∧
      ((MouseHoverTracker.from_rect 2 4).set_hovered false).is_just_unhovered =
        true) ∧
    ((MouseHoverTracker.from_rect 2 4).set_hovered false).is_just_hovered =
      false ∧
    ((MouseHoverTracker.from_rect 2 4).set_hovered false).is_just_unhovered =
      false := by
  have h := c7_edge_flags (MouseHoverTracker.from_rect 2 4) false
  exact ⟨rfl, h.1, h.2.2.1 rfl⟩

/-- C8: the rectangle hit test accepts every point of the closed box, in
particular the corner `(halfWidth, halfHeight)`; the triangle hit test
rejects every point of the form `u + t*(v - u)` lying on the line through
two of the vertices, i.e. its boundary is exclusive (for the edge `a`-`b`
this uses that the triangle is nondegenerate). -/
theorem c8_hit_test_boundary :
    (∀ r : Vec2, 0 ≤ r.x → 0 ≤ r.y →
      hover_hit (HoverShape.Rectangle r) ⟨r.x, r.y⟩ = true) ∧
    (∀ r p : Vec2, -r.x ≤ p.x → p.x ≤ r.x → -r.y ≤ p.y → p.y ≤ r.y →
      hover_hit (HoverShape.Rectangle r) p = true) ∧
    (∀ a b c : Vec2, ∀ t : ℚ,
      check_collision_point_tri (segPoint b c t) a b c = false) ∧
    (∀ a b c : Vec2, ∀ t : ℚ,
      check_collision_point_tri (segPoint c a t) a b c = false) ∧
    (∀ a b c : Vec2, ∀ t : ℚ, triangle_area a b c ≠ 0 →
      check_collision_point_tri (segPoint a b t) a b c = false) := by
  refine ⟨?_, ?_, ?_, ?_, ?_⟩
  · intro r hx hy
    simp only [hover_hit, Bool.and_eq_true, decide_eq_true_eq]
    exact ⟨⟨⟨by linarith, le_refl _⟩, by linarith⟩, le_refl _⟩
  · intro r p h1 h2 h3 h4
    simp only [hover_hit, Bool.and_eq_true, decide_eq_true_eq]
    exact ⟨⟨⟨h1, h2⟩, h3⟩, h4⟩
  · intro a b c t
    have h0 : bary_a_area (segPoint b c t) b c = 0 := by
      simp only [bary_a_area, segPoint]
      ring
    simp [check_collision_point_tri, h0]
  · intro a b c t
    have h0 : bary_b_area (segPoint c a t) a c = 0 := by
      simp only [bary_b_area, segPoint]
      ring
    simp [check_collision_point_tri, h0]
  · intro a b c t hT
    have hsum : bary_a_area (segPoint a b t) b c +
        bary_b_area (segPoint a b t) a c = triangle_area a b c := by
      simp only [bary_a_area, bary_b_area, triangle_area, segPoint]
      ring
    have hc : 1 - bary_a_area (segPoint a b t) b c * (triangle_area a b c)⁻¹
        - bary_b_area (segPoint a b t) a c * (triangle_area a b c)⁻¹ = 0 := by
      calc 1 - bary_a_area (segPoint a b t) b c * (triangle_area a b c)⁻¹
            - bary_b_area (segPoint a b t) a c * (triangle_area a b c)⁻¹
          = 1 - (bary_a_area (segPoint a b t) b c +
              bary_b_area (segPoint a b t) a c) * (triangle_area a b c)⁻¹ := by
            ring
        _ = 1 - triangle_area a b c * (triangle_area a b c)⁻¹ := by rw [hsum]
        _ = 1 - 1 := by rw [mul_inv_cancel₀ hT]
        _ = 0 := by ring
    simp [check_collision_point_tri, hc]

theorem c8_hit_test_boundary_witness :
    hover_hit (HoverShape.Rectangle ⟨1, 2⟩) ⟨1, 2⟩ = true ∧
    check_collision_point_tri (segPoint ⟨2, 0⟩ ⟨0, 2⟩ (1 / 2))
      ⟨0, 0⟩ ⟨2, 0⟩ ⟨0, 2⟩ = false ∧
    triangle_area ⟨0, 0⟩ ⟨2, 0⟩ ⟨0, 2⟩ ≠ 0 ∧
    check_collision_point_tri (segPoint ⟨0, 0⟩ ⟨2, 0⟩ (1 / 2))
      ⟨0, 0⟩ ⟨2, 0⟩ ⟨0, 2⟩ = false := by
  have h := c8_hit_test_boundary
  have hT : triangle_area ⟨0, 0⟩ ⟨2, 0⟩ ⟨0, 2⟩ ≠ 0 := by
    simp only [triangle_area]
    norm_num
  exact ⟨h.1 ⟨1, 2⟩ (by norm_num) (by norm_num),
    h.2.2.1 ⟨0, 0⟩ ⟨2, 0⟩ ⟨0, 2⟩ (1 / 2), hT,
    h.2.2.2.2 ⟨0, 0⟩ ⟨2, 0⟩ ⟨0, 2⟩ (1 / 2) hT⟩

/-- C3: while not interactive, on the timer interval elapsing,
`pattern_playback_system` either (when `idx > max_idx`) switches to the
input phase — `interactive := true`, `idx := 0`, the hover-disabled flag is
removed from every shape, the Memorize label is hidden — or (when
`idx ≤ max_idx`, with `pattern[idx]` defined) spawns the cue of
`pattern[idx]` through the total 4-way dispatch `soundFor` and increments
`idx`. -/
theorem c3_playback_step (w : GameWorld) (delta : Nat)
    (hni : w.state.interactive = false)
    (hfired : (tickTimer w.timer delta).2 = true) :
    (w.state.max_idx < w.state.idx →
      pattern_playback_system w delta =
        some ({ w with
                state := { w.state with interactive := true, idx := 0 },
                timer := (tickTimer w.timer delta).1,
                shapes := w.shapes.map fun e =>
                  { e with material := Mat.out, hoverDisabled := false },
                labelVisible := false }, none)) ∧
    (∀ sym, w.state.idx ≤ w.state.max_idx →
      w.state.pattern[w.state.idx]? = some sym →
      w.state.pattern.length ≤ 255 →
      pattern_playback_system w delta =
        some ({ w with
                state := { w.state with idx := w.state.idx + 1 },
                timer := (tickTimer w.timer delta).1,
                shapes := w.shapes.map fun e =>
                  { e with material :=
                      if sym = e.patternIdx then Mat.over else Mat.out } },
              some (soundFor sym))) ∧
    (∀ s, s < 4 → soundFor s = s) := by
  refine ⟨?_, ?_, ?_⟩
  · intro hgt
    simp only [pattern_playback_system, hni, hfired]
    simp [hgt]
  · intro sym hle hget hlen
    have hidx : w.state.idx < w.state.pattern.length :=
      (List.getElem?_eq_some.1 hget).1
    have hmod : (w.state.idx + 1) % 256 = w.state.idx + 1 :=
      Nat.mod_eq_of_lt (by omega)
    have hng : ¬(w.state.max_idx < w.state.idx) := by omega
    simp only [pattern_playback_system, hni, hfired]
    simp [hng, hget, hmod]
  · intro s hs
    interval_cases s <;> rfl

theorem c3_playback_step_witness :
    (pattern_playback_system playbackDemoWorld 1).map (fun r => r.2) =
      some (some 2) := by
  have h := (c3_playback_step playbackDemoWorld 1 rfl (by decide)).2.1 2
    (by decide) (by decide) (by decide)
  rw [h]
  rfl

/-- C4: in the input phase, a press on a hovered shape whose symbol equals
`pattern[idx]`: when `idx = max_idx`, `max_idx` is incremented by exactly 1,
`idx` resets to 0, `interactive` becomes false, the timer restarts from
zero elapsed, the four shapes are re-disabled and the Memorize label is
re-shown; when `idx < max_idx`, only `idx` is incremented (so `interactive`
stays true). -/
theorem c4_correct_press (w : GameWorld) (b sym : Nat)
    (hint : w.state.interactive = true)
    (hfh : firstHovered w.shapes = some b)
    (hget : w.state.pattern[w.state.idx]? = some sym)
    (hcorrect : b = sym)
    (hlen : w.state.pattern.length ≤ 255) :
    (w.state.idx = w.state.max_idx →
      user_game_system w true =
        some ({ w with
                state := { w.state with
                           idx := 0,
                           max_idx := w.state.max_idx + 1,
                           interactive := false },
                timer := w.timer.reset,
                labelVisible := true,
                shapes := w.shapes.map fun e =>
                  { e with hoverDisabled := true } }, [soundFor b]) ∧
      (w.timer.reset).elapsed = 0) ∧
    (w.state.idx < w.state.max_idx →
      user_game_system w true =
        some ({ w with
                state := { w.state with idx := w.state.idx + 1 } },
              [soundFor b])) := by
  have hidx : w.state.idx < w.state.pattern.length :=
    (List.getElem?_eq_some.1 hget).1
  refine ⟨?_, ?_⟩
  · intro heq
    have hmod : (w.state.max_idx + 1) % 256 = w.state.max_idx + 1 :=
      Nat.mod_eq_of_lt (by omega)
    have hget2 : w.state.pattern[w.state.max_idx]? = some sym := by
      rw [← heq]; exact hget
    simp only [user_game_system, hint]
    simp [hfh, hget, hget2, hcorrect, heq, hmod, PTimer.reset]
  · intro hlt
    have hne : ¬(w.state.idx = w.state.max_idx) := by omega
    have hmod : (w.state.idx + 1) % 256 = w.state.idx + 1 :=
      Nat.mod_eq_of_lt (by omega)
    simp only [user_game_system, hint]
    simp [hfh, hget, hcorrect, hne, hmod]

theorem c4_correct_press_witness :
    (user_game_system correctPressDemoWorld true).map
        (fun r => r.1.state.max_idx) = some 1 ∧
    (user_game_system correctPressDemoWorld true).map
        (fun r => r.1.state.idx) = some 0 ∧
    (user_game_system correctPressDemoWorld true).map
        (fun r => r.1.state.interactive) = some false ∧
    (user_game_system correctPressDemoWorld true).map
        (fun r => r.1.timer.elapsed) = some 0 := by
  have h := (c4_correct_press correctPressDemoWorld 1 1 rfl (by decide)
    (by decide) rfl (by decide)).1 rfl
  rw [h.1]
  exact ⟨rfl, rfl, rfl, rfl⟩

/-- C5: in the input phase, a press on a hovered shape whose symbol differs
from `pattern[idx]` spawns all four cues and requests the Score scene,
leaving the `GameState` (in particular `max_idx`) unchanged; a press with
no hovered shape leaves the whole world unchanged. -/
theorem c5_wrong_press (w : GameWorld)
    (hint : w.state.interactive = true) :
    (∀ b sym, firstHovered w.shapes = some b →
      w.state.pattern[w.state.idx]? = some sym → b ≠ sym →
      user_game_system w true =
        some ({ w with nextScene := Scene.Score }, [0, 1, 2, 3])) ∧
    (firstHovered w.shapes = none →
      user_game_system w true = some (w, [])) := by
  refine ⟨?_, ?_⟩
  · intro b sym hfh hget hne
    simp only [user_game_system, hint]
    simp [hfh, hget, hne]
  · intro hfh
    simp only [user_game_system, hint]
    simp [hfh]

theorem c5_wrong_press_witness :
    (user_game_system wrongPressDemoWorld true).map
        (fun r => r.1.nextScene) = some Scene.Score ∧
    (user_game_system wrongPressDemoWorld true).map
        (fun r => r.1.state.max_idx) = some 2 ∧
    (user_game_system wrongPressDemoWorld true).map
        (fun r => r.2) = some [0, 1, 2, 3] := by
  have h := (c5_wrong_press wrongPressDemoWorld rfl).1 3 1 (by decide)
    (by decide) (by decide)
  rw [h]
  exact ⟨rfl, rfl, rfl⟩

theorem setup_keeps (s : Scene) (f : AppWorld → AppWorld)
    (hf : setupFor s = some f) (w : AppWorld) :
    (f w).current = w.current ∧ (f w).next = w.next ∧
    (¬s = Scene.Game → (f w).gameState = w.gameState) := by
  cases s
  · simp [setupFor] at hf
  · simp only [setupFor, Option.some.injEq] at hf
    subst hf
    exact ⟨rfl, rfl, fun _ => rfl⟩
  · simp only [setupFor, Option.some.injEq] at hf
    subst hf
    exact ⟨rfl, rfl, fun _ => rfl⟩
  · simp only [setupFor, Option.some.injEq] at hf
    subst hf
    exact ⟨rfl, rfl, fun h => absurd rfl h⟩
  · simp only [setupFor, Option.some.injEq] at hf
    subst hf
    refine ⟨?_, ?_, fun _ => ?_⟩ <;> (unfold setup_score; split <;> rfl)
  · simp only [setupFor, Option.some.injEq] at hf
    subst hf
    exact ⟨rfl, rfl, fun _ => rfl⟩

theorem handle_enter_game (w : AppWorld) (hnext : w.next = Scene.Game)
    (hcur : ¬w.current = Scene.Game) :
    (handle_scene_change w).1.gameState =
      { pattern := freshPattern w.rand, interactive := false, max_idx := 0,
        idx := 0 } ∧
    (handle_scene_change w).1.timer = { w.timer with elapsed := 0 } := by
  have hne : w.next ≠ w.current := by
    rw [hnext]
    intro hc
    exact hcur hc.symm
  unfold handle_scene_change
  rw [if_pos hne, hnext]
  simp [setupFor, setup_game, setup_game_state, PTimer.reset]

/-- C9: when the requested scene equals the current one the transition step
is a strict no-op (no teardown, no setup, nothing changed); when they
differ, exactly one teardown runs, the current scene becomes the requested
one, and an immediate rerun of the transition step is a no-op, so at most
one teardown/setup cycle happens per frame. -/
theorem c9_transition_idempotent (w : AppWorld) :
    (w.next = w.current → handle_scene_change w = (w, false, none)) ∧
    (w.next ≠ w.current →
      (handle_scene_change w).2.1 = true ∧
      (handle_scene_change w).1.current = w.next ∧
      (handle_scene_change w).1.next = w.next ∧
      handle_scene_change (handle_scene_change w).1 =
        ((handle_scene_change w).1, false, none)) := by
  constructor
  · intro h
    simp [handle_scene_change, h]
  · intro h
    unfold handle_scene_change
    rw [if_pos h]
    cases hs : setupFor w.next with
    | none =>
      refine ⟨rfl, rfl, rfl, ?_⟩
      rw [if_neg]
      simp
    | some f =>
      obtain ⟨hc, hn, _⟩ := setup_keeps w.next f hs
        { w with current := w.next, sceneObjects := [] }
      refine ⟨rfl, by rw [hc], by rw [hn], ?_⟩
      rw [if_neg]
      rw [hc, hn]
      simp

theorem c9_transition_idempotent_witness :
    (handle_scene_change (appStartWorld (fun _ => 0) 0)).2.1 = true ∧
    (handle_scene_change (appStartWorld (fun _ => 0) 0)).1.current =
      Scene.ClickToStart ∧
    handle_scene_change (handle_scene_change (appStartWorld (fun _ => 0) 0)).1 =
      ((handle_scene_change (appStartWorld (fun _ => 0) 0)).1, false, none) := by
  have h := (c9_transition_idempotent (appStartWorld (fun _ => 0) 0)).2
    (by decide)
  refine ⟨h.1, ?_, h.2.2.2⟩
  rw [h.2.1]
  rfl

/-- C2 (amended): the `GameState` is created fresh (reset and regenerated,
timer restarted) on every transition into the Game scene; it is NOT reset
on transitions out of the Game scene — any transition whose target is not
Game leaves the `GameState` resource untouched (the Score scene reads its
`max_idx` afterwards); it is reset only on the next entry into Game. -/
theorem c2_game_state_lifecycle (w : AppWorld) :
    (w.next = Scene.Game → ¬w.current = Scene.Game →
      (handle_scene_change w).1.gameState =
        { pattern := freshPattern w.rand, interactive := false, max_idx := 0,
          idx := 0 } ∧
      (handle_scene_change w).1.timer = { w.timer with elapsed := 0 }) ∧
    (¬w.next = Scene.Game →
      (handle_scene_change w).1.gameState = w.gameState) := by
  constructor
  · intro h1 h2
    exact handle_enter_game w h1 h2
  · intro hng
    by_cases hc : w.next = w.current
    · simp [handle_scene_change, hc]
    · unfold handle_scene_change
      rw [if_pos hc]
      cases hs : setupFor w.next with
      | none => rfl
      | some f =>
        exact (setup_keeps w.next f hs
          { w with current := w.next, sceneObjects := [] }).2.2 hng

theorem c2_game_state_lifecycle_witness :
    ¬exitGameWorld.next = Scene.Game ∧
    (handle_scene_change exitGameWorld).1.gameState =
      exitGameWorld.gameState := by
  exact ⟨by decide, (c2_game_state_lifecycle exitGameWorld).2 (by decide)⟩

theorem c2_game_state_not_reset_on_exit :
    exitGameWorld.current = Scene.Game ∧
    exitGameWorld.next = Scene.Score ∧
    (handle_scene_change exitGameWorld).2.1 = true ∧
    (handle_scene_change exitGameWorld).1.current = Scene.Score ∧
    (handle_scene_change exitGameWorld).1.gameState =
      exitGameWorld.gameState ∧
    ¬exitGameWorld.gameState = GameState.new ∧
    (handle_scene_change exitGameWorld).1.gameState.max_idx = 2 := by
  refine ⟨rfl, rfl, by decide, by decide, by decide, by decide, by decide⟩

/-- C6: on every transition into the Game scene the regenerated pattern has
length exactly 255 with every symbol in `{0,1,2,3}`, the cursor and
difficulty restart at `idx = 0`, `max_idx = 0` with `interactive = false`,
and the interval timer is restarted (elapsed back to 0, period and
repeating mode kept); the timer inserted at startup is the repeating
1.0-period one. -/
theorem c6_fresh_game_generation (r : Nat → Nat) (hsc : Nat) (w : AppWorld)
    (hnext : w.next = Scene.Game) (hcur : ¬w.current = Scene.Game) :
    (handle_scene_change w).1.gameState.pattern.length = 255 ∧
    (∀ x ∈ (handle_scene_change w).1.gameState.pattern, x < 4) ∧
    (handle_scene_change w).1.gameState.max_idx = 0 ∧
    (handle_scene_change w).1.gameState.idx = 0 ∧
    (handle_scene_change w).1.gameState.interactive = false ∧
    (handle_scene_change w).1.timer = { w.timer with elapsed := 0 } ∧
    (appStartWorld r hsc).timer =
      { elapsed := 0, period := 1, repeating := true } := by
  obtain ⟨hgs, ht⟩ := handle_enter_game w hnext hcur
  refine ⟨?_, ?_, ?_, ?_, ?_, ht, rfl⟩
  · rw [hgs]
    exact freshPattern_length w.rand
  · rw [hgs]
    intro x hx
    exact freshPattern_mem w.rand x hx
  · rw [hgs]
  · rw [hgs]
  · rw [hgs]

theorem c6_fresh_game_generation_witness :
    (handle_scene_change
        { appStartWorld (fun _ => 0) 0 with next := Scene.Game
          }).1.gameState.pattern.length = 255 ∧
    (handle_scene_change
        { appStartWorld (fun _ => 0) 0 with next := Scene.Game
          }).1.gameState.interactive = false ∧
    (handle_scene_change
        { appStartWorld (fun _ => 0) 0 with next := Scene.Game
          }).1.timer.elapsed = 0 := by
  have h := c6_fresh_game_generation (fun _ => 0) 0
    { appStartWorld (fun _ => 0) 0 with next := Scene.Game } rfl (by decide)
  exact ⟨h.1, h.2.2.2.2.1, by rw [h.2.2.2.2.2.1]⟩

theorem tick_keeps_period (t : PTimer) (d : Nat) :
    ((tickTimer t d).1).period = t.period := by
  simp only [tickTimer]
  split_ifs <;> rfl

theorem tick_one_fires (t : PTimer) (hp : t.period = 1) :
    (tickTimer t 1).2 = true := by
  simp only [tickTimer, hp]
  split_ifs <;> simp_all

theorem reset_keeps_period (t : PTimer) : (t.reset).period = t.period := rfl

theorem playback_fire_switch (w : GameWorld) (delta : Nat)
    (hni : w.state.interactive = false)
    (hfired : (tickTimer w.timer delta).2 = true)
    (hgt : w.state.max_idx < w.state.idx) :
    pattern_playback_system w delta =
      some ({ w with
              state := { w.state with interactive := true, idx := 0 },
              timer := (tickTimer w.timer delta).1,
              shapes := w.shapes.map fun e =>
                { e with material := Mat.out, hoverDisabled := false },
              labelVisible := false }, none) := by
  simp only [pattern_playback_system, hni, hfired]
  simp [hgt]

theorem playback_fire_play (w : GameWorld) (delta : Nat) (sym : Nat)
    (hni : w.state.interactive = false)
    (hfired : (tickTimer w.timer delta).2 = true)
    (hle : w.state.idx ≤ w.state.max_idx)
    (hget : w.state.pattern[w.state.idx]? = some sym)
    (hlen : w.state.pattern.length ≤ 255) :
    pattern_playback_system w delta =
      some ({ w with
              state := { w.state with idx := w.state.idx + 1 },
              timer := (tickTimer w.timer delta).1,
              shapes := w.shapes.map fun e =>
                { e with material :=
                    if sym = e.patternIdx then Mat.over else Mat.out } },
            some (soundFor sym)) := by
  have hidx : w.state.idx < w.state.pattern.length :=
    (List.getElem?_eq_some.1 hget).1
  have hmod : (w.state.idx + 1) % 256 = w.state.idx + 1 :=
    Nat.mod_eq_of_lt (by omega)
  have hng : ¬(w.state.max_idx < w.state.idx) := by omega
  simp only [pattern_playback_system, hni, hfired]
  simp [hng, hget, hmod]

theorem playback_fire_oob (w : GameWorld) (delta : Nat)
    (hni : w.state.interactive = false)
    (hfired : (tickTimer w.timer delta).2 = true)
    (hng : ¬w.state.max_idx < w.state.idx)
    (hget : w.state.pattern[w.state.idx]? = none)
    (hne : w.state.pattern.isEmpty = false) :
    pattern_playback_system w delta = none := by
  simp only [pattern_playback_system, hni, hfired]
  simp [hng, hget, hne]

theorem press_complete_eq (w : GameWorld) (b sym : Nat)
    (hint : w.state.interactive = true)
    (hfh : firstHovered w.shapes = some b)
    (hget : w.state.pattern[w.state.idx]? = some sym)
    (hbs : b = sym)
    (hlen : w.state.pattern.length ≤ 255)
    (heq : w.state.idx = w.state.max_idx) :
    user_game_system w true =
      some ({ w with
              state := { w.state with
                         idx := 0,
                         max_idx := w.state.max_idx + 1,
                         interactive := false },
              timer := w.timer.reset,
              labelVisible := true,
              shapes := w.shapes.map fun e =>
                { e with hoverDisabled := true } }, [soundFor b]) := by
  have hidx : w.state.idx < w.state.pattern.length :=
    (List.getElem?_eq_some.1 hget).1
  have hmod : (w.state.max_idx + 1) % 256 = w.state.max_idx + 1 :=
    Nat.mod_eq_of_lt (by omega)
  have hget2 : w.state.pattern[w.state.max_idx]? = some sym := by
    rw [← heq]
    exact hget
  simp only [user_game_system, hint]
  simp [hfh, hget, hget2, hbs, heq, hmod, PTimer.reset]

theorem press_advance_eq (w : GameWorld) (b sym : Nat)
    (hint : w.state.interactive = true)
    (hfh : firstHovered w.shapes = some b)
    (hget : w.state.pattern[w.state.idx]? = some sym)
    (hbs : b = sym)
    (hlen : w.state.pattern.length ≤ 255)
    (hne : ¬w.state.idx = w.state.max_idx) :
    user_game_system w true =
      some ({ w with
              state := { w.state with idx := w.state.idx + 1 } },
            [soundFor b]) := by
  have hidx : w.state.idx < w.state.pattern.length :=
    (List.getElem?_eq_some.1 hget).1
  have hmod : (w.state.idx + 1) % 256 = w.state.idx + 1 :=
    Nat.mod_eq_of_lt (by omega)
  simp only [user_game_system, hint]
  simp [hfh, hget, hbs, hne, hmod]

theorem pb_state_cases (w : GameWorld) (delta : Nat) (w' : GameWorld)
    (c : Option Nat) (h : pattern_playback_system w delta = some (w', c)) :
    w'.state = w.state ∨
    (w.state.interactive = false ∧ w.state.max_idx < w.state.idx ∧
      w'.state.pattern = w.state.pattern ∧ w'.state.interactive = true ∧
      w'.state.max_idx = w.state.max_idx ∧ w'.state.idx = 0) ∨
    (w.state.interactive = false ∧ ¬w.state.max_idx < w.state.idx ∧
      w'.state.pattern = w.state.pattern ∧
      w'.state.interactive = w.state.interactive ∧
      w'.state.max_idx = w.state.max_idx ∧
      w'.state.idx = (w.state.idx + 1) % 256) := by
  simp only [pattern_playback_system] at h
  split at h
  · left
    simp only [Option.some.injEq, Prod.mk.injEq] at h
    rw [← h.1]
  · rename_i hni
    have hni' : w.state.interactive = false := by simpa using hni
    split at h
    · split at h
      · rename_i hgt
        right; left
        simp only [Option.some.injEq, Prod.mk.injEq] at h
        obtain ⟨h1, -⟩ := h
        subst h1
        exact ⟨hni', hgt, rfl, rfl, rfl, rfl⟩
      · rename_i hgt
        right; right
        split at h
        · simp only [Option.some.injEq, Prod.mk.injEq] at h
          obtain ⟨h1, -⟩ := h
          subst h1
          exact ⟨hni', hgt, rfl, rfl, rfl, rfl⟩
        · split at h
          · simp only [Option.some.injEq, Prod.mk.injEq] at h
            obtain ⟨h1, -⟩ := h
            subst h1
            exact ⟨hni', hgt, rfl, rfl, rfl, rfl⟩
          · exact absurd h (by simp)
    · left
      simp only [Option.some.injEq, Prod.mk.injEq] at h
      rw [← h.1]

theorem press_state_cases (w : GameWorld) (released : Bool) (w' : GameWorld)
    (cs : List Nat) (h : user_game_system w released = some (w', cs)) :
    w'.state = w.state ∨
    (w.state.interactive = true ∧
      w.state.idx < w.state.pattern.length ∧
      w.state.idx = w.state.max_idx ∧
      w'.state.pattern = w.state.pattern ∧
      w'.state.interactive = false ∧
      w'.state.max_idx = (w.state.max_idx + 1) % 256 ∧
      w'.state.idx = 0) ∨
    (w.state.interactive = true ∧
      w.state.idx < w.state.pattern.length ∧
      ¬w.state.idx = w.state.max_idx ∧
      w'.state.pattern = w.state.pattern ∧
      w'.state.interactive = w.state.interactive ∧
      w'.state.max_idx = w.state.max_idx ∧
      w'.state.idx = (w.state.idx + 1) % 256) := by
  simp only [user_game_system] at h
  split at h
  · rename_i hcond
    split at h
    · left
      simp only [Option.some.injEq, Prod.mk.injEq] at h
      rw [← h.1]
    · rename_i b hfh
      split at h
      · exact absurd h (by simp)
      · rename_i sym hget
        have hidx : w.state.idx < w.state.pattern.length :=
          (List.getElem?_eq_some.1 hget).1
        split at h
        · split at h
          · rename_i hbs hmx
            right; left
            simp only [Option.some.injEq, Prod.mk.injEq] at h
            obtain ⟨h1, -⟩ := h
            subst h1
            exact ⟨hcond.1, hidx, hmx, rfl, rfl, rfl, rfl⟩
          · rename_i hbs hmx
            right; right
            simp only [Option.some.injEq, Prod.mk.injEq] at h
            obtain ⟨h1, -⟩ := h
            subst h1
            exact ⟨hcond.1, hidx, hmx, rfl, rfl, rfl, rfl⟩
        · left
          simp only [Option.some.injEq, Prod.mk.injEq] at h
          rw [← h.1]
  · left
    simp only [Option.some.injEq, Prod.mk.injEq] at h
    rw [← h.1]

theorem engineInv_of_reachable (rand : Nat → Nat) (W H : ℚ) (t0 : PTimer)
    (w : GameWorld) (hw : ReachableGW rand W H t0 w) :
    EngineInv w.state := by
  induction hw with
  | init =>
    have hst : (freshGameWorld rand W H t0).state =
        { pattern := freshPattern rand, interactive := false, max_idx := 0,
          idx := 0 } := rfl
    rw [hst]
    exact ⟨freshPattern_length rand, Nat.zero_le _, Nat.zero_le _,
      by simp, by simp⟩
  | hover w f hw ih => exact ih
  | hoverMat w hw ih => exact ih
  | unhoverMat w hw ih => exact ih
  | playback w delta w' c hw hstep ih =>
    obtain ⟨hlen, hmax, hidx, hint, hnint⟩ := ih
    rcases pb_state_cases w delta w' c hstep with
      heq | ⟨hni, hgt, hp, hi, hm, hx⟩ | ⟨hni, hgt, hp, hi, hm, hx⟩
    · rw [heq]
      exact ⟨hlen, hmax, hidx, hint, hnint⟩
    · have h1 := hnint hni
      refine ⟨?_, ?_, ?_, ?_, ?_⟩
      · rw [hp]; exact hlen
      · rw [hm]; exact hmax
      · rw [hx]; omega
      · intro _
        rw [hx, hm]
        omega
      · rw [hi]
        simp
    · have h1 := hnint hni
      refine ⟨?_, ?_, ?_, ?_, ?_⟩
      · rw [hp]; exact hlen
      · rw [hm]; exact hmax
      · rw [hx]; omega
      · rw [hi, hni]
        simp
      · intro _
        rw [hx, hm]
        omega
  | press w released w' cs hw hstep ih =>
    obtain ⟨hlen, hmax, hidx, hint, hnint⟩ := ih
    rcases press_state_cases w released w' cs hstep with
      heq | ⟨hin, hbnd, hmx, hp, hi, hm, hx⟩ | ⟨hin, hbnd, hmx, hp, hi, hm, hx⟩
    · rw [heq]
      exact ⟨hlen, hmax, hidx, hint, hnint⟩
    · have h1 := hint hin
      refine ⟨?_, ?_, ?_, ?_, ?_⟩
      · rw [hp]; exact hlen
      · rw [hm]; omega
      · rw [hx]; omega
      · rw [hi]
        simp
      · intro _
        rw [hx, hm]
        omega
    · have h1 := hint hin
      refine ⟨?_, ?_, ?_, ?_, ?_⟩
      · rw [hp]; exact hlen
      · rw [hm]; exact hmax
      · rw [hx]; omega
      · intro _
        rw [hx, hm]
        omega
      · rw [hi, hin]
        simp

theorem playback_interactive_skip (w : GameWorld) (delta : Nat)
    (hin : w.state.interactive = true) :
    pattern_playback_system w delta = some (w, none) := by
  simp only [pattern_playback_system, hin]
  simp

theorem playback_no_fire (w : GameWorld) (delta : Nat)
    (hni : w.state.interactive = false)
    (hfired : (tickTimer w.timer delta).2 = false) :
    pattern_playback_system w delta =
      some ({ w with timer := (tickTimer w.timer delta).1 }, none) := by
  simp only [pattern_playback_system, hni, hfired]
  simp

theorem press_noop (w : GameWorld) (released : Bool)
    (h : ¬(w.state.interactive = true ∧ released = true)) :
    user_game_system w released = some (w, []) := by
  simp only [user_game_system]
  rw [if_neg h]

theorem press_nohover (w : GameWorld)
    (hint : w.state.interactive = true)
    (hfh : firstHovered w.shapes = none) :
    user_game_system w true = some (w, []) := by
  simp only [user_game_system, hint]
  simp [hfh]

theorem press_wrong_eq (w : GameWorld) (b sym : Nat)
    (hint : w.state.interactive = true)
    (hfh : firstHovered w.shapes = some b)
    (hget : w.state.pattern[w.state.idx]? = some sym)
    (hbs : ¬b = sym) :
    user_game_system w true =
      some ({ w with nextScene := Scene.Score }, [0, 1, 2, 3]) := by
  simp only [user_game_system, hint]
  simp [hfh, hget, hbs]

/-- The safe side of C1: for every reachable Game-scene world,
`idx ≤ max_idx` holds during input validation (so its indexing of
`pattern[idx]` is in bounds and `user_game_system` never panics),
`idx ≤ max_idx + 1` and `max_idx ≤ 255` always hold, and while
`max_idx < 255` the playback system never panics either. The cap itself is
NOT safe: once `max_idx` reaches 255 — a perfect reproduction of the whole
pattern — playback reaches `idx = 255 = pattern.length` and the indexing of
`pattern[255]` is out of bounds (`c1_cap_panic_counterexample`). -/
theorem c1_engine_bounds (rand : Nat → Nat) (W H : ℚ) (t0 : PTimer)
    (w : GameWorld) (hw : ReachableGW rand W H t0 w) :
    w.state.pattern.length = 255 ∧
    w.state.max_idx ≤ 255 ∧
    w.state.idx ≤ 255 ∧
    (w.state.interactive = true →
      w.state.idx ≤ w.state.max_idx ∧
      w.state.idx < w.state.pattern.length) ∧
    (w.state.interactive = false → w.state.idx ≤ w.state.max_idx + 1) ∧
    (∀ released, user_game_system w released ≠ none) ∧
    (w.state.max_idx < 255 →
      ∀ delta, pattern_playback_system w delta ≠ none) := by
  obtain ⟨hlen, hmax, hidx, hint, hnint⟩ :=
    engineInv_of_reachable rand W H t0 w hw
  refine ⟨hlen, hmax, hidx, ?_, hnint, ?_, ?_⟩
  · intro hin
    obtain ⟨h1, h2⟩ := hint hin
    exact ⟨h1, by omega⟩
  · intro released
    by_cases hcond : w.state.interactive = true ∧ released = true
    · obtain ⟨hin, hrel⟩ := hcond
      subst hrel
      obtain ⟨h1, h2⟩ := hint hin
      cases hfh : firstHovered w.shapes with
      | none => rw [press_nohover w hin hfh]; simp
      | some b =>
        cases hget : w.state.pattern[w.state.idx]? with
        | none =>
          exfalso
          have h3 := List.getElem?_eq_none_iff.1 hget
          omega
        | some sym =>
          by_cases hbs : b = sym
          · by_cases hmx2 : w.state.idx = w.state.max_idx
            · rw [press_complete_eq w b sym hin hfh hget hbs (by omega) hmx2]
              simp
            · rw [press_advance_eq w b sym hin hfh hget hbs (by omega) hmx2]
              simp
          · rw [press_wrong_eq w b sym hin hfh hget hbs]
            simp
    · rw [press_noop w released hcond]
      simp
  · intro hmx delta
    cases hin : w.state.interactive with
    | true => rw [playback_interactive_skip w delta hin]; simp
    | false =>
      cases hf : (tickTimer w.timer delta).2 with
      | false => rw [playback_no_fire w delta hin hf]; simp
      | true =>
        by_cases hgt : w.state.max_idx < w.state.idx
        · rw [playback_fire_switch w delta hin hf hgt]; simp
        · have h1 := hnint hin
          have hle : w.state.idx ≤ w.state.max_idx := by omega
          cases hget : w.state.pattern[w.state.idx]? with
          | none =>
            exfalso
            have h3 := List.getElem?_eq_none_iff.1 hget
            omega
          | some sym =>
            rw [playback_fire_play w delta sym hin hf hle hget (by omega)]
            simp

theorem c1_engine_bounds_witness :
    (freshGameWorld (fun _ => 0) 800 800
        { elapsed := 0, period := 1, repeating := true }).state.pattern.length
      = 255 ∧
    user_game_system (freshGameWorld (fun _ => 0) 800 800
        { elapsed := 0, period := 1, repeating := true }) true ≠ none := by
  have h := c1_engine_bounds (fun _ => 0) 800 800
    { elapsed := 0, period := 1, repeating := true } _ ReachableGW.init
  exact ⟨h.1, h.2.2.2.2.2.1 true⟩

theorem zeroPattern_getElem (j : Nat) (h : j < 255) :
    (freshPattern (fun _ => 0))[j]? = some 0 := by
  rw [freshPattern_getElem (fun _ => 0) j h]

theorem shapes_of_idx_map (shapes : List ShapeEntity)
    (hsh : shapes.map (fun e => e.patternIdx) = [0, 1, 2, 3]) :
    ∃ e0 e1 e2 e3, shapes = [e0, e1, e2, e3] ∧
      e0.patternIdx = 0 ∧ e1.patternIdx = 1 ∧
      e2.patternIdx = 2 ∧ e3.patternIdx = 3 := by
  cases shapes with
  | nil => simp at hsh
  | cons e0 t0 =>
    cases t0 with
    | nil => simp at hsh
    | cons e1 t1 =>
      cases t1 with
      | nil => simp at hsh
      | cons e2 t2 =>
        cases t2 with
        | nil => simp at hsh
        | cons e3 t3 =>
          cases t3 with
          | cons e4 t4 => simp at hsh
          | nil =>
            simp only [List.map_cons, List.map_nil, List.cons.injEq,
              and_true] at hsh
            exact ⟨e0, e1, e2, e3, rfl, hsh.1, hsh.2.1, hsh.2.2.1,
              hsh.2.2.2⟩

theorem mapped_patternIdx (g : ShapeEntity → ShapeEntity)
    (hg : ∀ e, (g e).patternIdx = e.patternIdx) (shapes : List ShapeEntity)
    (hsh : shapes.map (fun e => e.patternIdx) = [0, 1, 2, 3]) :
    (shapes.map g).map (fun e => e.patternIdx) = [0, 1, 2, 3] := by
  rw [List.map_map]
  have hfun : (fun e => e.patternIdx) ∘ g = fun e => e.patternIdx :=
    funext fun e => hg e
  rw [hfun, hsh]

theorem firstHovered_select (shapes : List ShapeEntity)
    (hsh : shapes.map (fun e => e.patternIdx) = [0, 1, 2, 3])
    (hen : ∀ e ∈ shapes, e.hoverDisabled = false) :
    firstHovered (applyHover (fun e => e.patternIdx == 0) shapes) = some 0 ∧
    (applyHover (fun e => e.patternIdx == 0) shapes).map
      (fun e => e.patternIdx) = [0, 1, 2, 3] ∧
    (∀ e ∈ applyHover (fun e => e.patternIdx == 0) shapes,
      e.hoverDisabled = false) := by
  refine ⟨?_, ?_, ?_⟩
  case refine_2 =>
    unfold applyHover
    apply mapped_patternIdx
    · intro e
      rfl
    · exact hsh
  · obtain ⟨e0, e1, e2, e3, rfl, h0, h1, h2, h3⟩ :=
      shapes_of_idx_map shapes hsh
    have d0 : e0.hoverDisabled = false := hen e0 (by simp)
    simp only [applyHover, List.map_cons, firstHovered]
    rw [List.find?_cons_of_pos]
    · simp [h0]
    · show (e0.tracker.set_hovered
        (if e0.hoverDisabled then false else (e0.patternIdx == 0))).is_hovered
          = true
      rw [set_hovered_is_hovered, d0, h0]
      simp
  · intro e he
    simp only [applyHover, List.mem_map] at he
    obtain ⟨d, hd, rfl⟩ := he
    exact hen d hd

theorem cap_tick_run (k : Nat) :
    ∀ (j m : Nat) (w : GameWorld), CapReach w →
    w.state = { pattern := freshPattern (fun _ => 0), interactive := false,
                max_idx := m, idx := j } →
    w.timer.period = 1 →
    w.shapes.map (fun e => e.patternIdx) = [0, 1, 2, 3] →
    j + k ≤ m + 1 → j + k ≤ 255 →
    ∃ w', CapReach w' ∧
      w'.state = { pattern := freshPattern (fun _ => 0),
                   interactive := false, max_idx := m, idx := j + k } ∧
      w'.timer.period = 1 ∧
      w'.shapes.map (fun e => e.patternIdx) = [0, 1, 2, 3] := by
  induction k with
  | zero =>
    intro j m w hw hst hp hsh h1 h2
    exact ⟨w, hw, by simpa using hst, hp, hsh⟩
  | succ k ih =>
    intro j m w hw hst hp hsh h1 h2
    have hni : w.state.interactive = false := by rw [hst]
    have hf : (tickTimer w.timer 1).2 = true := tick_one_fires w.timer hp
    have hle : w.state.idx ≤ w.state.max_idx := by
      rw [hst]
      show j ≤ m
      omega
    have hget : w.state.pattern[w.state.idx]? = some 0 := by
      rw [hst]
      exact zeroPattern_getElem j (by omega)
    have hlen : w.state.pattern.length ≤ 255 := by
      rw [hst]
      show (freshPattern (fun _ => 0)).length ≤ 255
      rw [freshPattern_length]
    have hstep := playback_fire_play w 1 0 hni hf hle hget hlen
    have hw1 := ReachableGW.playback w 1 _ _ hw hstep
    have hst1 : ({ w with
        state := { w.state with idx := w.state.idx + 1 },
        timer := (tickTimer w.timer 1).1,
        shapes := w.shapes.map fun e =>
          { e with material :=
              if 0 = e.patternIdx then Mat.over else Mat.out } } :
        GameWorld).state =
        { pattern := freshPattern (fun _ => 0), interactive := false,
          max_idx := m, idx := j + 1 } := by
      rw [hst]
    have hp1 : ((tickTimer w.timer 1).1).period = 1 := by
      rw [tick_keeps_period]
      exact hp
    have hsh1 := mapped_patternIdx
      (fun e => { e with material :=
        if 0 = e.patternIdx then Mat.over else Mat.out })
      (fun e => rfl) w.shapes hsh
    obtain ⟨w', hw', hst', hp', hsh'⟩ := ih (j + 1) m _ hw1 hst1 hp1 hsh1
      (by omega) (by omega)
    refine ⟨w', hw', ?_, hp', hsh'⟩
    rw [hst']
    have : j + 1 + k = j + (k + 1) := by omega
    rw [this]

theorem cap_enter_interactive (m : Nat) (w : GameWorld) (hw : CapReach w)
    (hst : w.state = { pattern := freshPattern (fun _ => 0),
                       interactive := false, max_idx := m, idx := 0 })
    (hp : w.timer.period = 1)
    (hsh : w.shapes.map (fun e => e.patternIdx) = [0, 1, 2, 3])
    (hm : m < 255) :
    ∃ w', CapReach w' ∧
      w'.state = { pattern := freshPattern (fun _ => 0),
                   interactive := true, max_idx := m, idx := 0 } ∧
      w'.timer.period = 1 ∧
      w'.shapes.map (fun e => e.patternIdx) = [0, 1, 2, 3] ∧
      (∀ e ∈ w'.shapes, e.hoverDisabled = false) := by
  obtain ⟨w1, hw1, hst1, hp1, hsh1⟩ :=
    cap_tick_run (m + 1) 0 m w hw hst hp hsh (by omega) (by omega)
  have hni : w1.state.interactive = false := by rw [hst1]
  have hf : (tickTimer w1.timer 1).2 = true := tick_one_fires w1.timer hp1
  have hgt : w1.state.max_idx < w1.state.idx := by
    rw [hst1]
    show m < 0 + (m + 1)
    omega
  have hstep := playback_fire_switch w1 1 hni hf hgt
  have hw2 := ReachableGW.playback w1 1 _ none hw1 hstep
  refine ⟨_, hw2, ?_, ?_, ?_, ?_⟩
  · show ({ w1.state with interactive := true, idx := 0 } : GameState) =
      { pattern := freshPattern (fun _ => 0), interactive := true,
        max_idx := m, idx := 0 }
    rw [hst1]
  · show ((tickTimer w1.timer 1).1).period = 1
    rw [tick_keeps_period]
    exact hp1
  · show (w1.shapes.map fun e =>
        { e with material := Mat.out, hoverDisabled := false }).map
      (fun e => e.patternIdx) = [0, 1, 2, 3]
    exact mapped_patternIdx
      (fun e => { e with material := Mat.out, hoverDisabled := false })
      (fun e => rfl) w1.shapes hsh1
  · intro e he
    simp only [List.mem_map] at he
    obtain ⟨d, hd, rfl⟩ := he
    rfl

theorem cap_press_run (k : Nat) :
    ∀ (j m : Nat) (w : GameWorld), CapReach w →
    w.state = { pattern := freshPattern (fun _ => 0), interactive := true,
                max_idx := m, idx := j } →
    w.timer.period = 1 →
    w.shapes.map (fun e => e.patternIdx) = [0, 1, 2, 3] →
    (∀ e ∈ w.shapes, e.hoverDisabled = false) →
    j + k = m → m < 255 →
    ∃ w', CapReach w' ∧
      w'.state = { pattern := freshPattern (fun _ => 0),
                   interactive := false, max_idx := m + 1, idx := 0 } ∧
      w'.timer.period = 1 ∧
      w'.shapes.map (fun e => e.patternIdx) = [0, 1, 2, 3] := by
  induction k with
  | zero =>
    intro j m w hw hst hp hsh hen hjk hm
    obtain ⟨hfh, hsh2, hen2⟩ := firstHovered_select w.shapes hsh hen
    have hw2 : CapReach { w with
        shapes := applyHover (fun e => e.patternIdx == 0) w.shapes } :=
      ReachableGW.hover w _ hw
    have hint2 : ({ w with
        shapes := applyHover (fun e => e.patternIdx == 0) w.shapes } :
        GameWorld).state.interactive = true := by
      show w.state.interactive = true
      rw [hst]
    have hget2 : ({ w with
        shapes := applyHover (fun e => e.patternIdx == 0) w.shapes } :
        GameWorld).state.pattern[({ w with
        shapes := applyHover (fun e => e.patternIdx == 0) w.shapes } :
        GameWorld).state.idx]? = some 0 := by
      show w.state.pattern[w.state.idx]? = some 0
      rw [hst]
      exact zeroPattern_getElem j (by omega)
    have hlen2 : ({ w with
        shapes := applyHover (fun e => e.patternIdx == 0) w.shapes } :
        GameWorld).state.pattern.length ≤ 255 := by
      show w.state.pattern.length ≤ 255
      rw [hst]
      show (freshPattern (fun _ => 0)).length ≤ 255
      rw [freshPattern_length]
    have hmx2 : ({ w with
        shapes := applyHover (fun e => e.patternIdx == 0) w.shapes } :
        GameWorld).state.idx = ({ w with
        shapes := applyHover (fun e => e.patternIdx == 0) w.shapes } :
        GameWorld).state.max_idx := by
      show w.state.idx = w.state.max_idx
      rw [hst]
      show j = m
      omega
    have hstep := press_complete_eq _ 0 0 hint2 hfh hget2 rfl hlen2 hmx2
    have hw3 := ReachableGW.press _ true _ _ hw2 hstep
    refine ⟨_, hw3, ?_, ?_, ?_⟩
    · show ({ w.state with
              idx := 0,
              max_idx := w.state.max_idx + 1,
              interactive := false } : GameState) =
        { pattern := freshPattern (fun _ => 0), interactive := false,
          max_idx := m + 1, idx := 0 }
      rw [hst]
    · show ((w.timer.reset).period) = 1
      rw [reset_keeps_period]
      exact hp
    · show ((applyHover (fun e => e.patternIdx == 0) w.shapes).map fun e =>
          { e with hoverDisabled := true }).map
        (fun e => e.patternIdx) = [0, 1, 2, 3]
      exact mapped_patternIdx (fun e => { e with hoverDisabled := true })
        (fun e => rfl) _ hsh2
  | succ k ih =>
    intro j m w hw hst hp hsh hen hjk hm
    obtain ⟨hfh, hsh2, hen2⟩ := firstHovered_select w.shapes hsh hen
    have hw2 : CapReach { w with
        shapes := applyHover (fun e => e.patternIdx == 0) w.shapes } :=
      ReachableGW.hover w _ hw
    have hint2 : ({ w with
        shapes := applyHover (fun e => e.patternIdx == 0) w.shapes } :
        GameWorld).state.interactive = true := by
      show w.state.interactive = true
      rw [hst]
    have hget2 : ({ w with
        shapes := applyHover (fun e => e.patternIdx == 0) w.shapes } :
        GameWorld).state.pattern[({ w with
        shapes := applyHover (fun e => e.patternIdx == 0) w.shapes } :
        GameWorld).state.idx]? = some 0 := by
      show w.state.pattern[w.state.idx]? = some 0
      rw [hst]
      exact zeroPattern_getElem j (by omega)
    have hlen2 : ({ w with
        shapes := applyHover (fun e => e.patternIdx == 0) w.shapes } :
        GameWorld).state.pattern.length ≤ 255 := by
      show w.state.pattern.length ≤ 255
      rw [hst]
      show (freshPattern (fun _ => 0)).length ≤ 255
      rw [freshPattern_length]
    have hne2 : ¬({ w with
        shapes := applyHover (fun e => e.patternIdx == 0) w.shapes } :
        GameWorld).state.idx = ({ w with
        shapes := applyHover (fun e => e.patternIdx == 0) w.shapes } :
        GameWorld).state.max_idx := by
      show ¬w.state.idx = w.state.max_idx
      rw [hst]
      show ¬j = m
      omega
    have hstep := press_advance_eq _ 0 0 hint2 hfh hget2 rfl hlen2 hne2
    have hw3 := ReachableGW.press _ true _ _ hw2 hstep
    apply ih (j + 1) m _ hw3
    · show ({ w.state with idx := w.state.idx + 1 } : GameState) =
        { pattern := freshPattern (fun _ => 0), interactive := true,
          max_idx := m, idx := j + 1 }
      rw [hst]
    · show w.timer.period = 1
      exact hp
    · exact hsh2
    · exact hen2
    · omega
    · exact hm

theorem cap_round (m : Nat) (w : GameWorld) (hw : CapReach w)
    (hst : w.state = { pattern := freshPattern (fun _ => 0),
                       interactive := false, max_idx := m, idx := 0 })
    (hp : w.timer.period = 1)
    (hsh : w.shapes.map (fun e => e.patternIdx) = [0, 1, 2, 3])
    (hm : m < 255) :
    ∃ w', CapReach w' ∧
      w'.state = { pattern := freshPattern (fun _ => 0),
                   interactive := false, max_idx := m + 1, idx := 0 } ∧
      w'.timer.period = 1 ∧
      w'.shapes.map (fun e => e.patternIdx) = [0, 1, 2, 3] := by
  obtain ⟨w1, hw1, hst1, hp1, hsh1, hen1⟩ :=
    cap_enter_interactive m w hw hst hp hsh hm
  exact cap_press_run m 0 m w1 hw1 hst1 hp1 hsh1 hen1 (by omega) hm

theorem cap_climb (n : Nat) : n ≤ 255 →
    ∃ w, CapReach w ∧
      w.state = { pattern := freshPattern (fun _ => 0),
                  interactive := false, max_idx := n, idx := 0 } ∧
      w.timer.period = 1 ∧
      w.shapes.map (fun e => e.patternIdx) = [0, 1, 2, 3] := by
  induction n with
  | zero =>
    intro _
    exact ⟨freshGameWorld (fun _ => 0) 800 800
      { elapsed := 0, period := 1, repeating := true },
      ReachableGW.init, rfl, rfl, rfl⟩
  | succ n ih =>
    intro hn
    obtain ⟨w, hw, hst, hp, hsh⟩ := ih (by omega)
    exact cap_round n w hw hst hp hsh (by omega)

/-- C1: the out-of-bounds/panic branch IS reachable at the cap, contrary to
the claim and to the intended design. From the fresh Game scene with the
all-zero random stream, a perfect reproduction of all 255 rounds drives
`max_idx` to 255; playback then advances `idx` to 255, which exceeds
`pattern.length - 1 = 254` while still in the playback phase, and the next
timer interval indexes `pattern[255]` out of bounds —
`pattern_playback_system` hits the panic (`none`). -/
theorem c1_cap_panic_counterexample :
    ∃ w : GameWorld, CapReach w ∧
      w.state.interactive = false ∧
      w.state.pattern.length = 255 ∧
      w.state.max_idx = 255 ∧
      w.state.idx = 255 ∧
      pattern_playback_system w 1 = none := by
  obtain ⟨w, hw, hst, hp, hsh⟩ := cap_climb 255 le_rfl
  obtain ⟨w1, hw1, hst1, hp1, hsh1⟩ :=
    cap_tick_run 255 0 255 w hw hst hp hsh (by omega) (by omega)
  have hlen : w1.state.pattern.length = 255 := by
    rw [hst1]
    show (freshPattern (fun _ => 0)).length = 255
    exact freshPattern_length _
  refine ⟨w1, hw1, ?_, hlen, ?_, ?_, ?_⟩
  · rw [hst1]
  · rw [hst1]
  · rw [hst1]
  · apply playback_fire_oob w1 1
    · rw [hst1]
    · exact tick_one_fires w1.timer hp1
    · rw [hst1]
      show ¬(255 < 0 + 255)
      omega
    · rw [hst1]
      show (freshPattern (fun _ => 0))[0 + 255]? = none
      apply List.getElem?_eq_none_iff.2
      rw [freshPattern_length]
    · rw [hst1]
      show (freshPattern (fun _ => 0)).isEmpty = false
      have hne : freshPattern (fun _ => 0) ≠ [] := by
        intro hnil
        have hl := freshPattern_length (fun _ => 0)
        rw [hnil] at hl
        simp at hl
      simpa [List.isEmpty_iff] using hne

theorem handle_next (w : AppWorld) :
    (handle_scene_change w).1.next = w.next := by
  unfold handle_scene_change
  split
  · cases hs : setupFor w.next with
    | none => rfl
    | some f => exact (setup_keeps w.next f hs _).2.1
  · rfl

theorem handle_current (w : AppWorld) :
    (handle_scene_change w).1.current = w.next ∨
    ((handle_scene_change w).1 = w ∧ w.next = w.current) := by
  unfold handle_scene_change
  split
  · left
    cases hs : setupFor w.next with
    | none => rfl
    | some f => exact (setup_keeps w.next f hs _).1
  · right
    rename_i h
    exact ⟨rfl, by simpa using h⟩

theorem handle_no_startup (w : AppWorld) (hn : w.next ≠ Scene.Startup) :
    (handle_scene_change w).1.current ≠ Scene.Startup := by
  rcases handle_current w with h | ⟨heq, hnc⟩
  · rw [h]
    exact hn
  · rw [heq, ← hnc]
    exact hn

theorem noStartupTargets_append (xs ys : List SceneObj)
    (hx : noStartupTargets xs) (hy : noStartupTargets ys) :
    noStartupTargets (xs ++ ys) := by
  intro t ht
  rcases List.mem_append.1 ht with h | h
  · exact hx t h
  · exact hy t h

theorem noStartup_spawn_cts :
    noStartupTargets [SceneObj.changeButton Scene.MainMenu, SceneObj.text] := by
  intro t ht
  cases ht with
  | head => decide
  | tail _ h2 =>
    cases h2 with
    | tail _ h3 => cases h3

theorem noStartup_spawn_menu :
    noStartupTargets [SceneObj.buttonRect, SceneObj.changeButton Scene.Game,
      SceneObj.buttonRect, SceneObj.changeButton Scene.Credits,
      SceneObj.text] := by
  intro t ht
  cases ht with
  | tail _ h2 =>
    cases h2 with
    | head => decide
    | tail _ h3 =>
      cases h3 with
      | tail _ h4 =>
        cases h4 with
        | head => decide
        | tail _ h5 =>
          cases h5 with
          | tail _ h6 => cases h6

theorem noStartup_spawn_credits :
    noStartupTargets [SceneObj.changeButton Scene.MainMenu, SceneObj.text,
      SceneObj.text] := by
  intro t ht
  cases ht with
  | head => decide
  | tail _ h2 =>
    cases h2 with
    | tail _ h3 =>
      cases h3 with
      | tail _ h4 => cases h4

theorem noStartup_spawn_game :
    noStartupTargets [SceneObj.patternShape 0, SceneObj.patternShape 1,
      SceneObj.patternShape 2, SceneObj.patternShape 3, SceneObj.text] := by
  intro t ht
  cases ht with
  | tail _ h2 =>
    cases h2 with
    | tail _ h3 =>
      cases h3 with
      | tail _ h4 =>
        cases h4 with
        | tail _ h5 =>
          cases h5 with
          | tail _ h6 => cases h6

theorem noStartup_spawn_score_high :
    noStartupTargets [SceneObj.text, SceneObj.text, SceneObj.text,
      SceneObj.buttonRect, SceneObj.changeButton Scene.MainMenu] := by
  intro t ht
  cases ht with
  | tail _ h2 =>
    cases h2 with
    | tail _ h3 =>
      cases h3 with
      | tail _ h4 =>
        cases h4 with
        | tail _ h5 =>
          cases h5 with
          | head => decide
          | tail _ h6 => cases h6

theorem noStartup_spawn_score_low :
    noStartupTargets [SceneObj.text, SceneObj.text,
      SceneObj.buttonRect, SceneObj.changeButton Scene.MainMenu] := by
  intro t ht
  cases ht with
  | tail _ h2 =>
    cases h2 with
    | tail _ h3 =>
      cases h3 with
      | tail _ h4 =>
        cases h4 with
        | head => decide
        | tail _ h5 => cases h5

theorem setup_no_startup (s : Scene) (f : AppWorld → AppWorld)
    (hf : setupFor s = some f) (w : AppWorld)
    (hw : noStartupTargets w.sceneObjects) :
    noStartupTargets (f w).sceneObjects := by
  cases s
  · simp [setupFor] at hf
  · simp only [setupFor, Option.some.injEq] at hf
    subst hf
    exact noStartupTargets_append _ _ hw noStartup_spawn_cts
  · simp only [setupFor, Option.some.injEq] at hf
    subst hf
    exact noStartupTargets_append _ _ hw noStartup_spawn_menu
  · simp only [setupFor, Option.some.injEq] at hf
    subst hf
    exact noStartupTargets_append _ _ hw noStartup_spawn_game
  · simp only [setupFor, Option.some.injEq] at hf
    subst hf
    unfold setup_score
    split
    · exact noStartupTargets_append _ _ hw noStartup_spawn_score_high
    · exact noStartupTargets_append _ _ hw noStartup_spawn_score_low
  · simp only [setupFor, Option.some.injEq] at hf
    subst hf
    exact noStartupTargets_append _ _ hw noStartup_spawn_credits

theorem handle_objects (w : AppWorld)
    (hobj : noStartupTargets w.sceneObjects) :
    noStartupTargets (handle_scene_change w).1.sceneObjects := by
  unfold handle_scene_change
  split
  · cases hsf : setupFor w.next with
    | none =>
      intro t ht
      simp at ht
    | some f =>
      apply setup_no_startup w.next f hsf
      intro t ht
      simp at ht
  · exact hobj

theorem pressApp_next (gs : GameState) (t : PTimer) (rel : Bool)
    (ps : Option Nat) (next : Scene) (gs' : GameState) (t' : PTimer)
    (n' : Scene) (h : pressApp gs t rel ps next = some (gs', t', n')) :
    n' = next ∨ n' = Scene.Score := by
  unfold pressApp at h
  split at h
  · split at h
    · simp only [Option.some.injEq, Prod.mk.injEq] at h
      left
      exact h.2.2.symm
    · split at h
      · exact absurd h (by simp)
      · split at h
        · split at h <;>
            (simp only [Option.some.injEq, Prod.mk.injEq] at h; left;
             exact h.2.2.symm)
        · simp only [Option.some.injEq, Prod.mk.injEq] at h
          right
          exact h.2.2.symm
  · simp only [Option.some.injEq, Prod.mk.injEq] at h
    left
    exact h.2.2.symm

theorem appFrame_shape (w : AppWorld) (i : FrameInput) (w' : AppWorld)
    (hvi : ValidInput w i) (happ : appFrame w i = some w')
    (hobj : noStartupTargets w.sceneObjects)
    (hn : w.next ≠ Scene.Startup) :
    ∃ ww : AppWorld, w' = (handle_scene_change ww).1 ∧
      ww.next ≠ Scene.Startup ∧ ww.current = w.current ∧
      ww.sceneObjects = w.sceneObjects := by
  unfold appFrame at happ
  cases hpb : playbackApp w.gameState w.timer i.delta
      (hasPatternShapes w.sceneObjects) with
  | none =>
    simp only [hpb] at happ
    exact absurd happ (by simp)
  | some gt =>
    obtain ⟨gs1, t1⟩ := gt
    simp only [hpb] at happ
    cases hpr : pressApp gs1 t1 i.released i.pressShape w.next with
    | none =>
      simp only [hpr] at happ
      exact absurd happ (by simp)
    | some gtn =>
      obtain ⟨gs2, t2, n2⟩ := gtn
      simp only [hpr] at happ
      simp only [Option.some.injEq] at happ
      have hn2 : n2 = w.next ∨ n2 = Scene.Score :=
        pressApp_next gs1 t1 i.released i.pressShape w.next gs2 t2 n2 hpr
      have hn3 : (if i.released then
          match i.btnTarget with
          | some t => t
          | none => n2
        else n2) ≠ Scene.Startup := by
        split
        · cases hbt : i.btnTarget with
          | none =>
            rcases hn2 with rfl | h
            · exact hn
            · rw [h]
              decide
          | some t =>
            have hmem := hvi.2
            rw [hbt] at hmem
            exact hobj t hmem
        · rcases hn2 with rfl | h
          · exact hn
          · rw [h]
            decide
      exact ⟨_, happ.symm, hn3, rfl, rfl⟩

theorem frame_result_not_startup (w : AppWorld) (i : FrameInput)
    (w' : AppWorld) (hvi : ValidInput w i) (happ : appFrame w i = some w')
    (hobj : noStartupTargets w.sceneObjects)
    (hn : w.next ≠ Scene.Startup) :
    w'.current ≠ Scene.Startup ∧ w'.next ≠ Scene.Startup ∧
    noStartupTargets w'.sceneObjects := by
  obtain ⟨ww, rfl, hn3, hcur, hso⟩ := appFrame_shape w i w' hvi happ hobj hn
  refine ⟨handle_no_startup ww hn3, ?_, ?_⟩
  · rw [handle_next]
    exact hn3
  · apply handle_objects
    rw [hso]
    exact hobj

theorem appInv_of_reach (r : Nat → Nat) (hs : Nat) (w : AppWorld)
    (hw : AppReach r hs w) :
    w.next ≠ Scene.Startup ∧ noStartupTargets w.sceneObjects ∧
    (w.current = Scene.Startup → w = appStartWorld r hs) := by
  induction hw with
  | init =>
    refine ⟨fun h => Scene.noConfusion h, ?_, fun _ => rfl⟩
    intro t ht
    simp [appStartWorld] at ht
  | frame w i w' hw hvi happ ih =>
    obtain ⟨hn, hobj, hcur⟩ := ih
    obtain ⟨hc', hn', hobj'⟩ :=
      frame_result_not_startup w i w' hvi happ hobj hn
    exact ⟨hn', hobj', fun h => absurd h hc'⟩

theorem playbackApp_startup (gs : GameState) (t : PTimer) (d : Nat)
    (hni : gs.interactive = false) (hpat : gs.pattern = [])
    (hgt : ¬gs.max_idx < gs.idx) :
    ∃ gs1 t1, playbackApp gs t d false = some (gs1, t1) ∧
      gs1.interactive = false := by
  unfold playbackApp
  simp only [hni]
  cases hf : (tickTimer t d).2 with
  | false =>
    refine ⟨gs, (tickTimer t d).1, ?_, hni⟩
    simp [hf]
  | true =>
    refine ⟨{ gs with idx := (gs.idx + 1) % 256 }, (tickTimer t d).1, ?_, hni⟩
    have hone : gs.pattern[gs.idx]? = none := by
      rw [hpat]
      rfl
    simp [hf, hgt, hone, hpat, hni]

theorem pressApp_skip (gs : GameState) (t : PTimer) (rel : Bool)
    (ps : Option Nat) (next : Scene) (hni : gs.interactive = false) :
    pressApp gs t rel ps next = some (gs, t, next) := by
  unfold pressApp
  rw [if_neg]
  intro h
  rw [hni] at h
  exact absurd h.1 (by simp)

theorem handle_from_startup (w : AppWorld) (hc : w.current = Scene.Startup)
    (hn : w.next = Scene.ClickToStart) :
    (handle_scene_change w).1.current = Scene.ClickToStart ∧
    (handle_scene_change w).1.sceneObjects =
      [SceneObj.changeButton Scene.MainMenu, SceneObj.text] := by
  unfold handle_scene_change
  rw [hn, hc]
  rw [if_pos (by decide)]
  simp [setupFor, setup_click_to_start_scene]

/-- C10: at application start the current scene is `Startup` while the
requested scene is already `ClickToStart`; `Startup` has no registered
setup system; any first frame transitions into `ClickToStart` (spawning its
scene objects); and since neither a scene-change button nor the engine ever
requests `Startup`, no reachable world requests it and the current scene is
never `Startup` again after any frame. -/
theorem c10_startup_left_forever (r : Nat → Nat) (hs : Nat) :
    (appStartWorld r hs).current = Scene.Startup ∧
    (appStartWorld r hs).next = Scene.ClickToStart ∧
    setupFor Scene.Startup = none ∧
    (∀ i, ValidInput (appStartWorld r hs) i →
      ∃ w', appFrame (appStartWorld r hs) i = some w' ∧
        w'.current = Scene.ClickToStart ∧
        w'.sceneObjects = [SceneObj.changeButton Scene.MainMenu,
                           SceneObj.text]) ∧
    (∀ w, AppReach r hs w → w.next ≠ Scene.Startup ∧
      (w.current = Scene.Startup → w = appStartWorld r hs)) ∧
    (∀ w i w', AppReach r hs w → ValidInput w i → appFrame w i = some w' →
      w'.current ≠ Scene.Startup) := by
  refine ⟨rfl, rfl, rfl, ?_, ?_, ?_⟩
  · intro i hvi
    obtain ⟨hps, hbt⟩ := hvi
    have hpsn : i.pressShape = none := by
      cases hpsh : i.pressShape with
      | none => rfl
      | some b =>
        rw [hpsh] at hps
        simp [appStartWorld] at hps
    have hbtn : i.btnTarget = none := by
      cases hbth : i.btnTarget with
      | none => rfl
      | some b =>
        rw [hbth] at hbt
        simp [appStartWorld] at hbt
    obtain ⟨gs1, t1, hpb, hint1⟩ := playbackApp_startup
      (appStartWorld r hs).gameState (appStartWorld r hs).timer i.delta
      rfl rfl (by simp [appStartWorld, GameState.new])
    refine ⟨(handle_scene_change { appStartWorld r hs with
      gameState := gs1, timer := t1, next := Scene.ClickToStart }).1,
      ?_, ?_, ?_⟩
    · unfold appFrame
      have hhp : hasPatternShapes (appStartWorld r hs).sceneObjects =
          false := rfl
      rw [hhp]
      simp only [hpb]
      simp only [pressApp_skip gs1 t1 i.released i.pressShape
        (appStartWorld r hs).next hint1]
      simp only [hbtn]
      have hnx : (appStartWorld r hs).next = Scene.ClickToStart := rfl
      rw [hnx, ite_self]
    · exact (handle_from_startup _ rfl rfl).1
    · exact (handle_from_startup _ rfl rfl).2
  · intro w hw
    obtain ⟨hn, hobj, hcur⟩ := appInv_of_reach r hs w hw
    exact ⟨hn, hcur⟩
  · intro w i w' hw hvi happ
    obtain ⟨hn, hobj, hcur⟩ := appInv_of_reach r hs w hw
    exact (frame_result_not_startup w i w' hvi happ hobj hn).1

theorem c10_startup_left_forever_witness :
    (appStartWorld (fun _ => 0) 0).current = Scene.Startup ∧
    (appStartWorld (fun _ => 0) 0).next = Scene.ClickToStart ∧
    setupFor Scene.Startup = none ∧
    (∃ w', appFrame (appStartWorld (fun _ => 0) 0)
        { delta := 1, released := false, pressShape := none,
          btnTarget := none } = some w' ∧
      w'.current = Scene.ClickToStart) ∧
    (appStartWorld (fun _ => 0) 0).next ≠ Scene.Startup := by
  have h := c10_startup_left_forever (fun _ => 0) 0
  obtain ⟨w', hw', hc', -⟩ := h.2.2.2.1
    { delta := 1, released := false, pressShape := none, btnTarget := none }
    ⟨trivial, trivial⟩
  exact ⟨h.1, h.2.1, h.2.2.1,
    ⟨w', hw', hc'⟩, (h.2.2.2.2.1 _ AppReach.init).1⟩
